import Mathlib

/-!
Verification of the regexgenerator synthesis engine against its
natural-language specification.

The development shallowly embeds the Python sources:
  * `src/regexgen/patterns/ast.py`        — the pattern IR and serialization,
  * `src/regexgen/patterns/mutations.py`  — the structural mutation operators,
  * `src/regexgen/validation/validator.py`— the ReDoS safety heuristics,
  * `src/regexgen/scoring/fitness.py`     — the multi-criteria fitness scorer,
  * `src/regexgen/algorithms/simulated_annealing.py` — the annealing driver.

Python floats are modelled as rationals where the source only performs
field arithmetic, and as reals where the source uses transcendental
functions (`math.exp`, float `**` with non-integer exponents).  The
platform regex engine (compile / fullmatch / search) is out of scope of
the specification and is modelled as an oracle, as are the wall clock
(`time.time()`) and the pseudo-random number generator (the `random`
module): each is a stream of observations threaded through the
embedding in exactly the order the source consumes them.
-/

namespace RegexGen

/-! ## Pattern IR (`src/regexgen/patterns/ast.py`) -/

/-- The seven node kinds of the pattern AST, one constructor per Python
dataclass.  `CharacterClassNode.characters` is a Python `set[str]` of
single-character strings; it is modelled as a duplicate-free `List Char`.
`QuantifierNode.max_count = None` (unlimited) is `none`. -/
inductive PatternNode where
  | literal (value : String)
  | characterClass (characters : List Char) (negated : Bool)
      (ranges : List (Char × Char))
  | quantifier (child : PatternNode) (minCount : Nat) (maxCount : Option Nat)
      (lazy : Bool)
  | group (child : PatternNode) (capturing : Bool) (name : Option String)
  | alternation (alternatives : List PatternNode)
  | anchor (anchorType : String)
  | wildcard

/-- The characters Python's `re.escape` (CPython ≥ 3.7) prefixes with a
backslash: the bytes of `b"()[]{}?*+-|^$\\.&~# \t\n\r\v\f"`. -/
def reEscapeSpecial : List Char :=
  ['(', ')', '[', ']', '{', '}', '?', '*', '+', '-', '|', '^', '$', '\\',
   '.', '&', '~', '#', ' ', '\t', '\n', '\r', '\x0b', '\x0c']

/-- `re.escape`, used by `LiteralNode.to_regex`. -/
def reEscape (s : String) : String :=
  String.mk (s.toList.foldr
    (fun c acc => if c ∈ reEscapeSpecial then '\\' :: c :: acc else c :: acc) [])

/-- Stable insertion sort by character code, modelling Python's
`sorted` on a set of single-character strings
(`CharacterClassNode.to_regex`). -/
def insertSorted (c : Char) : List Char → List Char
  | [] => [c]
  | d :: rest => if c.val ≤ d.val then c :: d :: rest else d :: insertSorted c rest

/-- `sorted(self.characters)` in `CharacterClassNode.to_regex`. -/
def sortChars (cs : List Char) : List Char :=
  cs.foldr insertSorted []

/-- Escaping of one character inside a character class: the source
escapes the characters of the string `"\\^-]"`. -/
def classEscapeChar (c : Char) : List Char :=
  if c = '\\' ∨ c = '^' ∨ c = '-' ∨ c = ']' then ['\\', c] else [c]

/-- Bracket content contributed by the member characters of a class. -/
def classCharsContent (cs : List Char) : String :=
  String.mk ((sortChars cs).foldr (fun c acc => classEscapeChar c ++ acc) [])

/-- Bracket content contributed by the ranges of a class
(`f"{start}-{end}"` per range, endpoints unescaped in the source). -/
def classRangesContent (rs : List (Char × Char)) : String :=
  String.mk (rs.foldr (fun r acc => r.1 :: '-' :: r.2 :: acc) [])

/-- The quantifier suffix computed by `QuantifierNode.to_regex`:
the `if`/`elif` chain over `min_count`/`max_count` followed by the lazy
modifier, which is only appended when the suffix is `?`, `*` or `+`. -/
def quantifierSuffix (minCount : Nat) (maxCount : Option Nat) (lazy : Bool) :
    String :=
  let suffix :=
    if minCount = 0 ∧ maxCount = some 1 then "?"
    else if minCount = 0 ∧ maxCount = none then "*"
    else if minCount = 1 ∧ maxCount = none then "+"
    else if some minCount = maxCount then "\x7b" ++ toString minCount ++ "\x7d"
    else match maxCount with
      | none => "\x7b" ++ toString minCount ++ ",\x7d"
      | some m => "\x7b" ++ toString minCount ++ "," ++ toString m ++ "\x7d"
  if lazy ∧ (suffix = "?" ∨ suffix = "*" ∨ suffix = "+") then suffix ++ "?"
  else suffix

mutual

/-- `PatternNode.to_regex` (each subclass's method in
`src/regexgen/patterns/ast.py`).  Note that `QuantifierNode.to_regex`
wraps its child in a non-capturing group exactly when the child is an
`AlternationNode` or a `GroupNode`. -/
def PatternNode.toRegex : PatternNode → String
  | .literal value => reEscape value
  | .characterClass characters negated ranges =>
      if characters = [] ∧ ranges = [] then ""
      else
        "[" ++ (if negated then "^" else "")
            ++ classCharsContent characters ++ classRangesContent ranges ++ "]"
  | .quantifier child minCount maxCount lazy =>
      let childRegex := child.toRegex
      let childRegex :=
        match child with
        | .alternation _ => "(?:" ++ childRegex ++ ")"
        | .group _ _ _ => "(?:" ++ childRegex ++ ")"
        | _ => childRegex
      childRegex ++ quantifierSuffix minCount maxCount lazy
  | .group child capturing name =>
      if capturing = false then "(?:" ++ child.toRegex ++ ")"
      else match name with
        | some n => "(?P<" ++ n ++ ">" ++ child.toRegex ++ ")"
        | none => "(" ++ child.toRegex ++ ")"
  | .alternation [] => ""
  | .alternation (a :: rest) =>
      String.intercalate "|" (PatternNode.toRegexList (a :: rest))
  | .anchor anchorType => anchorType
  | .wildcard => "."

/-- `[alt.to_regex() for alt in self.alternatives]`. -/
def PatternNode.toRegexList : List PatternNode → List String
  | [] => []
  | a :: rest => a.toRegex :: PatternNode.toRegexList rest

end

mutual

/-- `PatternNode.complexity` (each subclass's method). -/
def PatternNode.complexity : PatternNode → Nat
  | .literal value => value.length
  | .characterClass characters _ ranges => 2 + characters.length + ranges.length
  | .quantifier child _ maxCount _ =>
      child.complexity + (if maxCount = none then 4 else 2)
  | .group child _ _ => child.complexity + 2
  | .alternation [] => 0
  | .alternation (a :: rest) =>
      PatternNode.complexitySum (a :: rest) + ((a :: rest).length - 1)
  | .anchor _ => 1
  | .wildcard => 1

/-- `sum(alt.complexity() for alt in self.alternatives)`. -/
def PatternNode.complexitySum : List PatternNode → Nat
  | [] => 0
  | a :: rest => a.complexity + PatternNode.complexitySum rest

end

mutual

/-- `PatternNode.clone` (deep copy; on the immutable Lean embedding it
is provably the identity, see `clone_eq_self`). -/
def PatternNode.clone : PatternNode → PatternNode
  | .literal value => .literal value
  | .characterClass characters negated ranges =>
      .characterClass characters negated ranges
  | .quantifier child minCount maxCount lazy =>
      .quantifier child.clone minCount maxCount lazy
  | .group child capturing name => .group child.clone capturing name
  | .alternation alternatives => .alternation (PatternNode.cloneList alternatives)
  | .anchor anchorType => .anchor anchorType
  | .wildcard => .wildcard

/-- `[alt.clone() for alt in self.alternatives]`. -/
def PatternNode.cloneList : List PatternNode → List PatternNode
  | [] => []
  | a :: rest => a.clone :: PatternNode.cloneList rest

end

mutual

theorem clone_eq_self : ∀ n : PatternNode, n.clone = n
  | .literal _ => rfl
  | .characterClass _ _ _ => rfl
  | .quantifier child _ _ _ => by
      simp [PatternNode.clone, clone_eq_self child]
  | .group child _ _ => by simp [PatternNode.clone, clone_eq_self child]
  | .alternation alternatives => by
      simp [PatternNode.clone, cloneList_eq_self alternatives]
  | .anchor _ => rfl
  | .wildcard => rfl

theorem cloneList_eq_self : ∀ l : List PatternNode, PatternNode.cloneList l = l
  | [] => rfl
  | a :: rest => by
      simp [PatternNode.cloneList, clone_eq_self a, cloneList_eq_self rest]

end

/-- `PatternAST`: a wrapper holding the root node. -/
structure PatternAST where
  root : PatternNode

def PatternAST.toRegex (p : PatternAST) : String := p.root.toRegex

def PatternAST.complexity (p : PatternAST) : Nat := p.root.complexity

def PatternAST.clone (p : PatternAST) : PatternAST := ⟨p.root.clone⟩

theorem astClone_eq_self (p : PatternAST) : p.clone = p := by
  simp [PatternAST.clone, clone_eq_self]

/-! ## Safety analysis (`src/regexgen/validation/validator.py`) -/

/-- Finds the first `')'` in the list: returns the characters strictly
before it and the characters strictly after it.  This is how far the
sub-expression `[^)]*` of the two heuristic regexes can reach before the
`\)` that follows it must match. -/
def takeToParen : List Char → Option (List Char × List Char)
  | [] => none
  | c :: rest =>
      if c = ')' then some ([], rest)
      else
        match takeToParen rest with
        | some (pre, post) => some (c :: pre, post)
        | none => none

/-- The character set `[*+]` of the heuristic regexes. -/
def isQuantChar (c : Char) : Bool := c = '*' || c = '+'

/-- One match attempt, at the start of the list, of the first heuristic
regex `\([^)]*[*+][^)]*\)[*+]` of `_find_nested_quantifiers`.  Since
`[^)]*` cannot cross a `')'`, a match consumes an opening parenthesis,
the (paren-free) segment up to the first `')'`, which must contain a
`*` or `+`, the `')'` itself, and one further `*` or `+`.  Returns the
matched text and the remaining input. -/
def tryMatchNested1 : List Char → Option (List Char × List Char)
  | '(' :: rest =>
      match takeToParen rest with
      | some (seg, after) =>
          if seg.any isQuantChar then
            match after with
            | q :: after' =>
                if isQuantChar q then some ('(' :: seg ++ [')', q], after')
                else none
            | [] => none
          else none
      | none => none
  | _ => none

/-- One match attempt, at the start of the list, of the second heuristic
regex `[*+][^)]*\)`: a `*` or `+`, the paren-free segment up to the
first `')'`, and that `')'`. -/
def tryMatchNested2 : List Char → Option (List Char × List Char)
  | [] => none
  | c :: rest =>
      if isQuantChar c then
        match takeToParen rest with
        | some (seg, after) => some (c :: seg ++ [')'], after)
        | none => none
      else none

/-- `re.findall` for the two heuristic regexes: scan left to right; at
each position attempt a match; on success record the matched text and
continue after it, otherwise advance one character.  The fuel argument
(`length + 1` at the top level) only bounds the recursion; both
matchers consume at least two characters on success, so it is never
exhausted. -/
def reFindallAux (tryMatch : List Char → Option (List Char × List Char)) :
    Nat → List Char → List String
  | 0, _ => []
  | _ + 1, [] => []
  | fuel + 1, c :: rest =>
      match tryMatch (c :: rest) with
      | some (m, remaining) => String.mk m :: reFindallAux tryMatch fuel remaining
      | none => reFindallAux tryMatch fuel rest

/-- `PatternValidator._find_nested_quantifiers`: the concatenated
`re.findall` results of the two heuristic regexes. -/
def findNestedQuantifiers (s : String) : List String :=
  let cs := s.toList
  reFindallAux tryMatchNested1 (cs.length + 1) cs ++
    reFindallAux tryMatchNested2 (cs.length + 1) cs

/-- `str.count` on a single character. -/
def countChar (s : String) (c : Char) : Nat := s.toList.count c

/-- The dictionary returned by `PatternValidator.analyze_pattern_safety`. -/
structure SafetyReport where
  riskLevel : String
  riskScore : Nat
  warnings : List String
  patternLength : Nat
  patternComplexity : Nat
  nestedQuantifiers : List String
  alternationCount : Nat
  quantifierCount : Nat
  characterClassCount : Nat

/-- `PatternValidator.analyze_pattern_safety`. -/
def analyzePatternSafety (pattern : PatternAST) : SafetyReport :=
  let regexString := pattern.toRegex
  let nestedQuantifiers := findNestedQuantifiers regexString
  let warnings : List String := []
  let warnings := if nestedQuantifiers.isEmpty then warnings else
    warnings ++ ["Nested quantifiers detected - high risk of catastrophic backtracking"]
  let riskScore := if nestedQuantifiers.isEmpty then 0 else 5
  let warnings := if regexString.toList.contains '|' then
    warnings ++ ["Alternation detected - potential for backtracking"] else warnings
  let riskScore := if regexString.toList.contains '|' then riskScore + 1 else riskScore
  let charClassCount := countChar regexString '['
  let warnings := if charClassCount > 3 then
    warnings ++ [s!"Many character classes ({charClassCount}) - may impact performance"]
    else warnings
  let riskScore := if charClassCount > 3 then riskScore + 1 else riskScore
  let unboundedCount := countChar regexString '*' + countChar regexString '+'
  let warnings := if unboundedCount > 2 then
    warnings ++ [s!"Multiple unbounded quantifiers ({unboundedCount}) - potential performance issue"]
    else warnings
  let riskScore := if unboundedCount > 2 then riskScore + 2 else riskScore
  let patternLength := regexString.length
  let warnings := if patternLength > 100 then
    warnings ++ [s!"Very long pattern ({patternLength} chars) - may be hard to understand"]
    else warnings
  let riskScore := if patternLength > 100 then riskScore + 1 else riskScore
  let riskLevel :=
    if riskScore = 0 then "low"
    else if riskScore ≤ 2 then "medium"
    else if riskScore ≤ 5 then "high"
    else "critical"
  { riskLevel := riskLevel
    riskScore := riskScore
    warnings := warnings
    patternLength := regexString.length
    patternComplexity := pattern.complexity
    nestedQuantifiers := nestedQuantifiers
    alternationCount := countChar regexString '|'
    quantifierCount := unboundedCount
    characterClassCount := charClassCount }

/-! ## Claims C3, C9, C4 -/

/-- The wrapping condition actually used by `QuantifierNode.to_regex`:
`isinstance(self.child, (AlternationNode, GroupNode))`. -/
def wrapsChild : PatternNode → Bool
  | .alternation _ => true
  | .group _ _ _ => true
  | _ => false

/-- C3 counterexample: a Quantifier over the multi-character Literal
`"ab"` serializes as `ab+`; the child is not wrapped in a non-capturing
group, contrary to the claim. -/
theorem quantifier_multichar_literal_not_wrapped :
    (PatternNode.quantifier (.literal "ab") 1 none false).toRegex = "ab+" ∧
    (PatternNode.quantifier (.literal "ab") 1 none false).toRegex ≠ "(?:ab)+" :=
  ⟨rfl, by decide⟩

/-- C3 (amended): serialization of a Quantifier wraps the child in a
non-capturing group exactly when the child is an Alternation or a
Group; multi-character Literal children and Quantifier children are
emitted bare, followed by the quantifier suffix. -/
theorem quantifier_wrapping_policy (child : PatternNode) (minCount : Nat)
    (maxCount : Option Nat) (lazy : Bool) :
    (PatternNode.quantifier child minCount maxCount lazy).toRegex =
      (if wrapsChild child then "(?:" ++ child.toRegex ++ ")" else child.toRegex)
        ++ quantifierSuffix minCount maxCount lazy := by
  cases child <;> rfl

/-- C9 counterexample: a Quantifier with `min = max = 1` over the
Literal `"a"` serializes as `a{1}`, not as the bare child `a`. -/
theorem quantifier_one_one_counterexample :
    (PatternNode.quantifier (.literal "a") 1 (some 1) false).toRegex = "a{1}" ∧
    (PatternNode.quantifier (.literal "a") 1 (some 1) false).toRegex ≠ "a" :=
  ⟨rfl, by decide⟩

/-- C9 (amended): a Quantifier with `min = max = 1` serializes as its
(possibly wrapped) child followed by the suffix `{1}` (the
`min_count == max_count` branch; the lazy modifier is not appended to a
brace suffix). -/
theorem quantifier_one_one_serialization (child : PatternNode) (lazy : Bool) :
    (PatternNode.quantifier child 1 (some 1) lazy).toRegex =
      (if wrapsChild child then "(?:" ++ child.toRegex ++ ")" else child.toRegex)
        ++ "{1}" := by
  cases lazy <;> cases child <;> rfl

/-- The pathological IR of the claim:
`Quantifier(Quantifier(Wildcard, 0, ∞), 1, ∞)`. -/
def pathologicalIR : PatternAST :=
  ⟨.quantifier (.quantifier .wildcard 0 none false) 1 none false⟩

/-- C4 counterexample: the pathological IR serializes as `.*+` (the
nested Quantifier child is not wrapped), so the claimed conjunction —
serialization `(?:.*)+`, critical risk, non-empty nested-quantifier
list, risk score ≥ 5 — is false. -/
theorem safety_pathological_counterexample :
    ¬ (pathologicalIR.toRegex = "(?:.*)+" ∧
       (analyzePatternSafety pathologicalIR).riskLevel = "critical" ∧
       (analyzePatternSafety pathologicalIR).nestedQuantifiers ≠ [] ∧
       5 ≤ (analyzePatternSafety pathologicalIR).riskScore) := by
  intro h
  exact absurd h.1 (by decide)

/-- C4 (amended): the pathological IR serializes as `.*+`; on that
string the heuristics find no nested quantifiers, the two unbounded
quantifiers do not exceed the threshold of 2, and safety analysis
returns risk score 0 and risk level `low`. -/
theorem safety_pathological_analysis :
    pathologicalIR.toRegex = ".*+" ∧
    (analyzePatternSafety pathologicalIR).riskLevel = "low" ∧
    (analyzePatternSafety pathologicalIR).nestedQuantifiers = [] ∧
    (analyzePatternSafety pathologicalIR).riskScore = 0 :=
  ⟨rfl, rfl, rfl, rfl⟩

/-! ## Fitness scoring (`src/regexgen/scoring/fitness.py`)

The platform regex engine is out of scope of the specification; a
compiled pattern's full-anchored match test (`compiled_pattern.fullmatch`)
is therefore an oracle `String → Bool` parameter. -/

/-- The value triple produced by `MultiCriteriaScorer._evaluate_correctness`. -/
structure CorrectnessResult where
  score : ℚ
  positiveMatches : Nat
  negativeMatches : Nat

/-- `MultiCriteriaScorer._evaluate_correctness`: count full-anchored
matches of positives and full-anchored non-matches of negatives, then
apply the branch structure of the source.  (Source comment: "Weight
positive matches much more heavily (80% vs 20%)"; `negative_matches`
counts the negatives the pattern rejects.) -/
def evaluateCorrectness (fullmatch : String → Bool)
    (positiveExamples negativeExamples : List String) : CorrectnessResult :=
  let positiveMatches := positiveExamples.countP (fun e => fullmatch e)
  let negativeMatches := negativeExamples.countP (fun e => !fullmatch e)
  let totalPositive := positiveExamples.length
  let totalNegative := negativeExamples.length
  let score : ℚ :=
    if totalPositive = 0 ∧ totalNegative = 0 then 1
    else if totalPositive = 0 then
      if 0 < totalNegative then (negativeMatches : ℚ) / totalNegative else 1
    else if totalNegative = 0 then (positiveMatches : ℚ) / totalPositive
    else
      let positiveRatio := (positiveMatches : ℚ) / totalPositive
      let negativeRatio :=
        if 0 < totalNegative then (negativeMatches : ℚ) / totalNegative else 1
      let score := (0.8 : ℚ) * positiveRatio + (0.2 : ℚ) * negativeRatio
      if positiveMatches = 0 then score * (0.1 : ℚ) else score
  ⟨score, positiveMatches, negativeMatches⟩

/-- C5: the correctness sub-score equals 1 when both example lists are
empty, the rejected-negative fraction `n` when the positives are empty,
the matched-positive fraction `p` when the negatives are empty, and
otherwise `0.8·p + 0.2·n`, additionally multiplied by `0.1` when no
positive matched — matching under the full-anchored match oracle. -/
theorem correctness_score_cases (fullmatch : String → Bool)
    (pos neg : List String) :
    (pos = [] → neg = [] → (evaluateCorrectness fullmatch pos neg).score = 1) ∧
    (pos = [] → neg ≠ [] → (evaluateCorrectness fullmatch pos neg).score =
      (neg.countP (fun e => !fullmatch e) : ℚ) / neg.length) ∧
    (pos ≠ [] → neg = [] → (evaluateCorrectness fullmatch pos neg).score =
      (pos.countP (fun e => fullmatch e) : ℚ) / pos.length) ∧
    (pos ≠ [] → neg ≠ [] → 0 < pos.countP (fun e => fullmatch e) →
      (evaluateCorrectness fullmatch pos neg).score =
        (0.8 : ℚ) * ((pos.countP (fun e => fullmatch e) : ℚ) / pos.length) +
        (0.2 : ℚ) * ((neg.countP (fun e => !fullmatch e) : ℚ) / neg.length)) ∧
    (pos ≠ [] → neg ≠ [] → pos.countP (fun e => fullmatch e) = 0 →
      (evaluateCorrectness fullmatch pos neg).score =
        ((0.8 : ℚ) * ((pos.countP (fun e => fullmatch e) : ℚ) / pos.length) +
         (0.2 : ℚ) * ((neg.countP (fun e => !fullmatch e) : ℚ) / neg.length)) *
          (0.1 : ℚ)) := by
  refine ⟨?_, ?_, ?_, ?_, ?_⟩ <;> intro h1 h2
  · subst h1 h2; rfl
  · subst h1
    have hn : neg.length ≠ 0 := by simpa using h2
    simp [evaluateCorrectness, hn, Nat.pos_of_ne_zero hn]
  · subst h2
    have hp : pos.length ≠ 0 := by simpa using h1
    simp [evaluateCorrectness, hp]
  · intro h3
    have hp : pos.length ≠ 0 := by simpa using h1
    have hn : neg.length ≠ 0 := by simpa using h2
    simp [evaluateCorrectness, hp, hn, Nat.pos_of_ne_zero hn,
      Nat.pos_iff_ne_zero.mp h3]
  · intro h3
    have hp : pos.length ≠ 0 := by simpa using h1
    have hn : neg.length ≠ 0 := by simpa using h2
    simp [evaluateCorrectness, hp, hn, Nat.pos_of_ne_zero hn, h3]

/-- C5 witness: with one matched positive and one rejected negative the
score is `0.8·1 + 0.2·1 = 1`. -/
theorem correctness_score_cases_witness :
    (evaluateCorrectness (fun s => s == "a") ["a"] ["b"]).score = 1 := by
  have h :=
    (correctness_score_cases (fun s => s == "a") ["a"] ["b"]).2.2.2.1
      (by decide) (by decide) (by decide)
  rw [h]
  norm_num [List.countP, List.countP.go, show ("b" == "a") = false from rfl]

/-! ## Scorer weights (`MultiCriteriaScorer.__init__`) -/

/-- The three scoring modes. -/
inductive ScoringMode where
  | minimal
  | readable
  | balanced

/-- Python's `value or default` idiom on a float-or-`None` keyword
argument: `None` and `0.0` are both falsy, so either selects the
default; any non-zero float is kept. -/
def pyOr (v : Option ℚ) (default : ℚ) : ℚ :=
  match v with
  | none => default
  | some x => if x = 0 then default else x

/-- The four sub-criterion weights held by a `MultiCriteriaScorer`. -/
structure ScorerWeights where
  correctnessWeight : ℚ
  complexityWeight : ℚ
  readabilityWeight : ℚ
  performanceWeight : ℚ

/-- The per-mode weight selection of `MultiCriteriaScorer.__init__`
(before normalization): each explicit weight is combined with the
mode's default through `or`. -/
def rawWeights (mode : ScoringMode)
    (correctnessWeight complexityWeight readabilityWeight performanceWeight :
      Option ℚ) : ScorerWeights :=
  match mode with
  | .minimal =>
      ⟨pyOr correctnessWeight 0.6, pyOr complexityWeight 0.3,
       pyOr readabilityWeight 0.05, pyOr performanceWeight 0.05⟩
  | .readable =>
      ⟨pyOr correctnessWeight 0.5, pyOr complexityWeight 0.1,
       pyOr readabilityWeight 0.3, pyOr performanceWeight 0.1⟩
  | .balanced =>
      ⟨pyOr correctnessWeight 0.5, pyOr complexityWeight 0.2,
       pyOr readabilityWeight 0.2, pyOr performanceWeight 0.1⟩

/-- The full weight computation of `MultiCriteriaScorer.__init__`:
mode defaults via `or`, then normalization by the total. -/
def initWeights (mode : ScoringMode)
    (correctnessWeight complexityWeight readabilityWeight performanceWeight :
      Option ℚ) : ScorerWeights :=
  let w := rawWeights mode correctnessWeight complexityWeight
    readabilityWeight performanceWeight
  let totalWeight := w.correctnessWeight + w.complexityWeight +
    w.readabilityWeight + w.performanceWeight
  ⟨w.correctnessWeight / totalWeight, w.complexityWeight / totalWeight,
   w.readabilityWeight / totalWeight, w.performanceWeight / totalWeight⟩

/-- C10: passing an explicit weight of `0.0` to the constructor is
identical to omitting the weight (the mode default is substituted, in
every position), the pre-normalization weights are never zero, and in
particular `correctness_weight = 0.0` with the balanced mode still
yields a normalized correctness weight of `0.5`. -/
theorem zero_weight_uses_mode_default (mode : ScoringMode)
    (o1 o2 o3 o4 : Option ℚ) :
    initWeights mode (some 0) o2 o3 o4 = initWeights mode none o2 o3 o4 ∧
    initWeights mode o1 (some 0) o3 o4 = initWeights mode o1 none o3 o4 ∧
    initWeights mode o1 o2 (some 0) o4 = initWeights mode o1 o2 none o4 ∧
    initWeights mode o1 o2 o3 (some 0) = initWeights mode o1 o2 o3 none ∧
    (rawWeights mode o1 o2 o3 o4).correctnessWeight ≠ 0 ∧
    (rawWeights mode o1 o2 o3 o4).complexityWeight ≠ 0 ∧
    (rawWeights mode o1 o2 o3 o4).readabilityWeight ≠ 0 ∧
    (rawWeights mode o1 o2 o3 o4).performanceWeight ≠ 0 ∧
    (initWeights .balanced (some 0) none none none).correctnessWeight = 0.5 := by
  have hz : ∀ d : ℚ, pyOr (some 0) d = pyOr none d := by
    intro d; simp [pyOr]
  have hnz : ∀ (v : Option ℚ) (d : ℚ), d ≠ 0 → pyOr v d ≠ 0 := by
    intro v d hd
    match v with
    | none => simpa [pyOr] using hd
    | some x =>
      by_cases hx : x = 0 <;> simp [pyOr, hx, hd]
  refine ⟨?_, ?_, ?_, ?_, ?_, ?_, ?_, ?_, ?_⟩
  · cases mode <;> simp [initWeights, rawWeights, hz]
  · cases mode <;> simp [initWeights, rawWeights, hz]
  · cases mode <;> simp [initWeights, rawWeights, hz]
  · cases mode <;> simp [initWeights, rawWeights, hz]
  · cases mode <;> exact hnz _ _ (by norm_num)
  · cases mode <;> exact hnz _ _ (by norm_num)
  · cases mode <;> exact hnz _ _ (by norm_num)
  · cases mode <;> exact hnz _ _ (by norm_num)
  · norm_num [initWeights, rawWeights, pyOr]

/-! ## The random-number oracle

All random choices of the source draw from the global `random` module.
The embedding threads an oracle: a stream of `random.random()` floats
and a stream of index draws backing `random.choice` / `random.randint`
/ `random.sample`, consumed in source order. -/

structure PyRandom where
  floats : Nat → ℚ
  floatPos : Nat
  ints : Nat → Nat
  intPos : Nat

/-- `random.random()`. -/
def PyRandom.nextFloat (r : PyRandom) : ℚ × PyRandom :=
  (r.floats r.floatPos, { r with floatPos := r.floatPos + 1 })

/-- One index draw; `random.choice(xs)` is `xs[draw % len(xs)]` and
`random.randint(a, b)` is `a + draw % (b - a + 1)`. -/
def PyRandom.nextInt (r : PyRandom) : Nat × PyRandom :=
  (r.ints r.intPos, { r with intPos := r.intPos + 1 })

/-! ## Acceptance rule (`SimulatedAnnealing._should_accept`) -/

open Classical in
/-- `SimulatedAnnealing._should_accept`: strictly better neighbors are
always accepted; at `temperature ≤ 0` equal-or-worse neighbors are
never accepted; otherwise one uniform draw is compared against
`exp((neighbor - current) / temperature)`. -/
noncomputable def shouldAccept (currentScore neighborScore temperature : ℝ)
    (rng : PyRandom) : Bool × PyRandom :=
  if currentScore < neighborScore then (true, rng)
  else if temperature ≤ 0 then (false, rng)
  else
    let (draw, rng') := rng.nextFloat
    (if (draw : ℝ) < Real.exp ((neighborScore - currentScore) / temperature)
      then true else false, rng')

/-- C6: a strictly better neighbor is always accepted; an
equal-or-worse neighbor is never accepted at `temperature ≤ 0`, and at
`temperature > 0` it is accepted exactly when the next uniform draw is
below `exp(Δ/temperature)` with `Δ = neighbor − current ≤ 0`. -/
theorem should_accept_rule (currentScore neighborScore temperature : ℝ)
    (rng : PyRandom) :
    (currentScore < neighborScore →
      shouldAccept currentScore neighborScore temperature rng = (true, rng)) ∧
    (neighborScore ≤ currentScore → temperature ≤ 0 →
      shouldAccept currentScore neighborScore temperature rng = (false, rng)) ∧
    (neighborScore ≤ currentScore → 0 < temperature →
      ((shouldAccept currentScore neighborScore temperature rng).1 = true ↔
        ((rng.nextFloat.1 : ℝ) <
          Real.exp ((neighborScore - currentScore) / temperature))) ∧
      (shouldAccept currentScore neighborScore temperature rng).2 =
        rng.nextFloat.2) := by
  refine ⟨?_, ?_, ?_⟩
  · intro h
    simp [shouldAccept, h]
  · intro h1 h2
    simp [shouldAccept, not_lt.mpr h1, h2]
  · intro h1 h2
    constructor
    · by_cases hd : ((rng.nextFloat.1 : ℝ) <
          Real.exp ((neighborScore - currentScore) / temperature)) <;>
        simp [shouldAccept, not_lt.mpr h1, not_le.mpr h2, hd]
    · simp [shouldAccept, not_lt.mpr h1, not_le.mpr h2]

/-- C6 witness: a strictly improving neighbor (0 → 1) is accepted with
no random draw consumed. -/
theorem should_accept_rule_witness :
    shouldAccept 0 1 1 ⟨fun _ => 0, 0, fun _ => 0, 0⟩ =
      (true, ⟨fun _ => 0, 0, fun _ => 0, 0⟩) :=
  (should_accept_rule 0 1 1 ⟨fun _ => 0, 0, fun _ => 0, 0⟩).1 (by norm_num)

/-! ## Mutation operators (`src/regexgen/patterns/mutations.py`)

Character constants from Python's `string` module (restricted to ASCII,
which is all the source draws from). -/

def asciiLowercase : List Char := "abcdefghijklmnopqrstuvwxyz".toList

def asciiUppercase : List Char := "ABCDEFGHIJKLMNOPQRSTUVWXYZ".toList

def asciiDigits : List Char := "0123456789".toList

/-- `string.ascii_letters` (lowercase then uppercase). -/
def asciiLetters : List Char := asciiLowercase ++ asciiUppercase

/-- `string.printable[:62]`: the first 62 characters of
`string.printable` are the digits, the lowercase letters, and the
uppercase letters. -/
def printable62 : List Char := asciiDigits ++ asciiLowercase ++ asciiUppercase

/-- Python `str.isalpha` (ASCII fragment): non-empty and all letters. -/
def strIsAlphaPy (s : String) : Bool :=
  !s.isEmpty && s.toList.all Char.isAlpha

/-- Python `str.isdigit` (ASCII fragment): non-empty and all digits. -/
def strIsDigitPy (s : String) : Bool :=
  !s.isEmpty && s.toList.all Char.isDigit

/-- Python `str.islower` (ASCII fragment): at least one lowercase
letter and no uppercase letter. -/
def strIsLowerPy (s : String) : Bool :=
  s.toList.any Char.isLower && s.toList.all (fun c => !c.isUpper)

/-- Python `str.isupper` (ASCII fragment): at least one uppercase
letter and no lowercase letter. -/
def strIsUpperPy (s : String) : Bool :=
  s.toList.any Char.isUpper && s.toList.all (fun c => !c.isLower)

/-- The seven mutation operator classes, in the order of
`PatternMutator.operators`. -/
inductive MutationOp where
  | literalToCharClass
  | charClassToRange
  | addQuantifier
  | modifyQuantifier
  | grouping
  | alternation
  | wildcard

/-- `PatternMutator.operators` (source order). -/
def mutationOperators : List MutationOp :=
  [.literalToCharClass, .charClassToRange, .addQuantifier, .modifyQuantifier,
   .grouping, .alternation, .wildcard]

/-- The `can_apply` guard of each operator. -/
def canApply : MutationOp → PatternNode → Bool
  | .literalToCharClass, .literal v => v.length == 1 && strIsAlphaPy v
  | .literalToCharClass, _ => false
  | .charClassToRange, .characterClass cs _ _ => cs.length > 3
  | .charClassToRange, _ => false
  | .addQuantifier, .quantifier _ _ _ _ => false
  | .addQuantifier, .anchor _ => false
  | .addQuantifier, _ => true
  | .modifyQuantifier, .quantifier _ _ _ _ => true
  | .modifyQuantifier, _ => false
  | .grouping, _ => true
  | .alternation, _ => true
  | .wildcard, .wildcard => true
  | .wildcard, .characterClass _ _ _ => true
  | .wildcard, .literal _ => true
  | .wildcard, _ => false

/-- `LiteralToCharClassMutation.apply`: a lowercase / uppercase / digit
literal becomes the corresponding full character class; anything else
is returned unchanged. -/
def applyLiteralToCharClass (node : PatternNode) : PatternNode :=
  match node with
  | .literal v =>
      if strIsLowerPy v then .characterClass asciiLowercase false []
      else if strIsUpperPy v then .characterClass asciiUppercase false []
      else if strIsDigitPy v then .characterClass asciiDigits false []
      else .literal v
  | n => n

/-- The inner `while` of `CharClassToRangeMutation.apply`: the maximal
run of consecutive code points continuing after `c`, and the rest. -/
def takeConsecRun (c : Char) : List Char → List Char × List Char
  | [] => ([], [])
  | d :: rest =>
      if d.toNat = c.toNat + 1 then
        let (r, rem) := takeConsecRun d rest
        (d :: r, rem)
      else ([], d :: rest)

/-- The outer `while` of `CharClassToRangeMutation.apply`: the sorted
character list split into maximal consecutive runs.  The fuel (list
length at the top level) only bounds the recursion; every step consumes
at least one character. -/
def splitRuns : Nat → List Char → List (List Char)
  | 0, _ => []
  | _ + 1, [] => []
  | fuel + 1, c :: rest =>
      let (r, rem) := takeConsecRun c rest
      (c :: r) :: splitRuns fuel rem

/-- `CharClassToRangeMutation.apply`: runs of ≥ 3 consecutive
characters move from the character set into ranges (prepended to the
existing ranges); shorter runs remain as characters. -/
def applyCharClassToRange (node : PatternNode) : PatternNode :=
  match node with
  | .characterClass cs negated rs =>
      let sorted := sortChars cs
      let runs := splitRuns sorted.length sorted
      let ranges := (runs.filter (fun r => 3 ≤ r.length)).map
        (fun r => (r.headD ' ', r.getLastD ' '))
      let remaining := (runs.filter (fun r => r.length < 3)).flatten
      .characterClass remaining negated (ranges ++ rs)
  | n => n

/-- The `quantifier_types` list of `AddQuantifierMutation.apply`. -/
def quantifierChoices : List (Nat × Option Nat) :=
  [(0, some 1), (0, none), (1, none), (2, some 4), (1, some 3)]

/-- `AddQuantifierMutation.apply`: wrap a clone of the node in a
quantifier whose bounds are chosen uniformly from `quantifier_types`
(`lazy` takes its dataclass default `False`). -/
def applyAddQuantifier (node : PatternNode) (rng : PyRandom) :
    PatternNode × PyRandom :=
  let (i, rng) := rng.nextInt
  let choice := quantifierChoices.getD (i % quantifierChoices.length) (0, some 1)
  (.quantifier node.clone choice.1 choice.2 false, rng)

/-- `random.choice([-1, 0, 1])` backed by one index draw. -/
def choicePm1 (i : Nat) : Int := [(-1 : Int), 0, 1].getD (i % 3) 0

/-- `ModifyQuantifierMutation.apply`: either perturb the bounds
(`max(0, min ± 1)`; an unbounded max stays `None` with probability 0.7
or becomes `randint(new_min+1, new_min+5)`; a bounded max is perturbed,
clamped to `new_min`, and collapses to `None` with probability 0.3 when
it equals `new_min`) or flip laziness, each chosen with one draw. -/
def applyModifyQuantifier (node : PatternNode) (rng : PyRandom) :
    PatternNode × PyRandom :=
  match node with
  | .quantifier child minCount maxCount lazy =>
      let (t, rng) := rng.nextInt
      if t % 2 = 0 then
        let (d1, rng) := rng.nextInt
        let newMin : Nat := (max 0 ((minCount : Int) + choicePm1 d1)).toNat
        match maxCount with
        | none =>
            let (f, rng) := rng.nextFloat
            if f < 0.7 then (.quantifier child.clone newMin none lazy, rng)
            else
              let (d2, rng) := rng.nextInt
              (.quantifier child.clone newMin (some (newMin + 1 + d2 % 5)) lazy,
                rng)
        | some m =>
            let (d2, rng) := rng.nextInt
            let newMax : Nat := (max (newMin : Int) ((m : Int) + choicePm1 d2)).toNat
            if newMax = newMin then
              let (f, rng) := rng.nextFloat
              if f < 0.3 then (.quantifier child.clone newMin none lazy, rng)
              else (.quantifier child.clone newMin (some newMax) lazy, rng)
            else (.quantifier child.clone newMin (some newMax) lazy, rng)
      else (.quantifier child.clone minCount maxCount (!lazy), rng)
  | n => (n, rng)

/-- `GroupingMutation.apply`: unwrap a Group, or wrap anything else in
a Group whose `capturing` flag is `random.choice([True, False])`. -/
def applyGrouping (node : PatternNode) (rng : PyRandom) :
    PatternNode × PyRandom :=
  match node with
  | .group child _ _ => (child.clone, rng)
  | n =>
      let (b, rng) := rng.nextInt
      (.group n.clone (b % 2 = 0) none, rng)

/-- `random.sample(list(chars), k)` abstracted as `k` index draws into
the character list (the set-to-list order is the embedding's canonical
list order). -/
def sampleChars (l : List Char) : Nat → PyRandom → List Char × PyRandom
  | 0, rng => ([], rng)
  | k + 1, rng =>
      let (i, rng) := rng.nextInt
      let (rest, rng) := sampleChars l k rng
      (l.getD (i % l.length) 'a' :: rest, rng)

/-- `AlternationMutation._generate_similar_pattern`. -/
def generateSimilarPattern (node : PatternNode) (rng : PyRandom) :
    PatternNode × PyRandom :=
  match node with
  | .literal v =>
      if strIsAlphaPy v then
        let (i, rng) := rng.nextInt
        (.literal (String.mk [asciiLetters.getD (i % asciiLetters.length) 'a']),
          rng)
      else if strIsDigitPy v then
        let (i, rng) := rng.nextInt
        (.literal (String.mk [asciiDigits.getD (i % asciiDigits.length) '0']),
          rng)
      else
        let (i, rng) := rng.nextInt
        (.literal (String.mk [printable62.getD (i % printable62.length) '0']),
          rng)
  | .characterClass cs _ _ =>
      let (sampled, rng) := sampleChars cs (min 3 cs.length) rng
      let (i, rng) := rng.nextInt
      (.characterClass
        ((sampled ++ [asciiLetters.getD (i % asciiLetters.length) 'a']).dedup)
        false [], rng)
  | _ =>
      let (i, rng) := rng.nextInt
      (.literal (String.mk [asciiLowercase.getD (i % asciiLowercase.length) 'a']),
        rng)

/-- `AlternationMutation.apply`: on an Alternation with ≥ 2
alternatives, drop a random alternative with probability 0.3 (the draw
only happens when there are ≥ 2 alternatives, by short-circuiting),
otherwise append a similar pattern; on any other node, pair it with a
similar pattern in a fresh Alternation.  (An empty `alternatives` list
would raise `IndexError` in the source; the embedding substitutes a
Wildcard seed there.) -/
def applyAlternation (node : PatternNode) (rng : PyRandom) :
    PatternNode × PyRandom :=
  match node with
  | .alternation alts =>
      if 1 < alts.length then
        let (f, rng) := rng.nextFloat
        if f < 0.3 then
          let (i, rng) := rng.nextInt
          (.alternation (PatternNode.cloneList (alts.eraseIdx (i % alts.length))),
            rng)
        else
          let (newAlt, rng) := generateSimilarPattern (alts.headD .wildcard) rng
          (.alternation (PatternNode.cloneList alts ++ [newAlt]), rng)
      else
        let (newAlt, rng) := generateSimilarPattern (alts.headD .wildcard) rng
        (.alternation (PatternNode.cloneList alts ++ [newAlt]), rng)
  | n =>
      let (similar, rng) := generateSimilarPattern n rng
      (.alternation [n.clone, similar], rng)

/-- The `char_sets` list of `WildcardMutation.apply`. -/
def wildcardCharSets : List (List Char) :=
  [asciiLowercase, asciiUppercase, asciiDigits, asciiLetters, printable62]

/-- `WildcardMutation.apply`: a Wildcard becomes a preset character
class; a character class becomes a Wildcard with probability 0.2 (else
it is returned as-is); a Literal becomes a Wildcard with no draw. -/
def applyWildcard (node : PatternNode) (rng : PyRandom) :
    PatternNode × PyRandom :=
  match node with
  | .wildcard =>
      let (i, rng) := rng.nextInt
      (.characterClass (wildcardCharSets.getD (i % wildcardCharSets.length) [])
        false [], rng)
  | .characterClass cs negated rs =>
      let (f, rng) := rng.nextFloat
      if f < 0.2 then (.wildcard, rng) else (.characterClass cs negated rs, rng)
  | .literal _ => (.wildcard, rng)
  | n => (n, rng)

/-- Dispatch `chosen_op.apply(node)`. -/
def applyOp : MutationOp → PatternNode → PyRandom → PatternNode × PyRandom
  | .literalToCharClass, n, rng => (applyLiteralToCharClass n, rng)
  | .charClassToRange, n, rng => (applyCharClassToRange n, rng)
  | .addQuantifier, n, rng => applyAddQuantifier n rng
  | .modifyQuantifier, n, rng => applyModifyQuantifier n rng
  | .grouping, n, rng => applyGrouping n rng
  | .alternation, n, rng => applyAlternation n rng
  | .wildcard, n, rng => applyWildcard n rng

mutual

/-- `PatternMutator._collect_nodes`: the node itself, then (only for
Quantifier/Group children and Alternation alternatives) the recursively
collected descendants. -/
def collectNodes : PatternNode → List PatternNode
  | .quantifier child minCount maxCount lazy =>
      .quantifier child minCount maxCount lazy :: collectNodes child
  | .group child capturing name =>
      .group child capturing name :: collectNodes child
  | .alternation alts => .alternation alts :: collectNodesList alts
  | n => [n]

/-- The `for alt in root.alternatives` loop of `_collect_nodes`. -/
def collectNodesList : List PatternNode → List PatternNode
  | [] => []
  | a :: rest => collectNodes a ++ collectNodesList rest

end

/-- One turn of the mutation loop in `PatternMutator.mutate`: draw the
selection float; when the node is selected, pick one of its applicable
operators uniformly and apply it.  The result replaces entry `i` of the
Python node list. -/
def mutateStep (mutationRate : ℚ) (node : PatternNode) (rng : PyRandom) :
    PatternNode × PyRandom :=
  let (f, rng) := rng.nextFloat
  if f < mutationRate then
    let applicableOps := mutationOperators.filter (fun op => canApply op node)
    match applicableOps with
    | [] => (node, rng)
    | _ :: _ =>
        let (i, rng) := rng.nextInt
        applyOp (applicableOps.getD (i % applicableOps.length) .grouping) node rng
  else (node, rng)

/-- The `for i, node in enumerate(nodes)` loop of
`PatternMutator.mutate`: each collected node is processed in order
(each list entry is assigned at most once, so every iteration sees the
original entry), threading the RNG. -/
def mutateList (mutationRate : ℚ) :
    List PatternNode → PyRandom → List PatternNode × PyRandom
  | [], rng => ([], rng)
  | n :: rest, rng =>
      let (n', rng) := mutateStep mutationRate n rng
      let (rest', rng') := mutateList mutationRate rest rng
      (n' :: rest', rng')

/-- `PatternMutator.mutate`: clone the pattern, collect its nodes, run
the mutation loop over the collected list, and rebuild the result as
`new_pattern.root = nodes[0]` — only the first list entry is ever put
back into the returned tree. -/
def mutate (mutationRate : ℚ) (pattern : PatternAST) (rng : PyRandom) :
    PatternAST × PyRandom :=
  let newPattern := pattern.clone
  let nodes := collectNodes newPattern.root
  let (nodes', rng) := mutateList mutationRate nodes rng
  (⟨nodes'.headD newPattern.root⟩, rng)

/-! ## Claim C2 -/

/-- C2 counterexample input: a Group over the Literal `"a"`. -/
def mutateC2Pattern : PatternAST := ⟨.group (.literal "a") true none⟩

/-- C2 counterexample oracle: the root is not selected (first draw 1/2
≥ 0.15) but the child Literal is (second draw 0 < 0.15); the index draw
4 picks `WildcardMutation` out of the child's five applicable
operators, whose `apply` deterministically replaces the Literal by a
Wildcard. -/
def mutateC2Rng : PyRandom :=
  ⟨fun n => if n = 0 then 1/2 else 0, 0, fun _ => 4, 0⟩

/-- C2 counterexample: under `mutateC2Rng` the child node is selected
and its operator produces a Wildcard replacement, yet `mutate` returns
the input tree unchanged — the replacement for the non-root node never
appears in the returned tree. -/
theorem mutate_discards_nonroot_replacement :
    (mutateStep (0.15 : ℚ) (.literal "a") (mutateC2Rng.nextFloat.2)).1 =
      PatternNode.wildcard ∧
    (mutate (0.15 : ℚ) mutateC2Pattern mutateC2Rng).1 = mutateC2Pattern ∧
    (mutate (0.15 : ℚ) mutateC2Pattern mutateC2Rng).1.root ≠
      PatternNode.group .wildcard true none := by
  have hguard : ("a".length == 1 && (!"a".isEmpty && 'a'.isAlpha)) = true := rfl
  have h2 : (mutate (0.15 : ℚ) mutateC2Pattern mutateC2Rng).1 =
      mutateC2Pattern := by
    norm_num [mutate, mutateC2Pattern, mutateC2Rng, PatternAST.clone,
      clone_eq_self, collectNodes, mutateList, mutateStep,
      PyRandom.nextFloat, PyRandom.nextInt, mutationOperators, canApply,
      applyOp, applyWildcard, strIsAlphaPy, List.filter, hguard]
  refine ⟨?_, h2, ?_⟩
  · norm_num [mutateStep, mutateC2Rng, PyRandom.nextFloat, PyRandom.nextInt,
      mutationOperators, canApply, applyOp, applyWildcard, strIsAlphaPy,
      List.filter, hguard]
  · rw [h2]
    intro h
    simp [mutateC2Pattern] at h

/-- C2 (amended): `mutate` returns the cloned input with only the first
collected node — the root — possibly replaced: the returned tree is
exactly the result of running one mutation step on the root with the
initial RNG state, and replacements produced for non-root nodes are
discarded. -/
theorem mutate_root_only (mutationRate : ℚ) (pattern : PatternAST)
    (rng : PyRandom) :
    (mutate mutationRate pattern rng).1 =
      ⟨(mutateStep mutationRate pattern.root rng).1⟩ := by
  cases hr : pattern.root <;>
    simp [mutate, PatternAST.clone, clone_eq_self, hr, collectNodes, mutateList]

/-! ## Full fitness score (`MultiCriteriaScorer.score`)

The regex engine and the wall clock are platform oracles.  A `Clock` is
the stream of successive `time.time()` readings, consumed in exactly
the order the source calls `time.time()`. -/

/-- The platform regex library: `re.compile` (`none` = compiles,
`some msg` = the `re.error` message), `pattern.fullmatch` and
`pattern.search` (by compiled pattern string and subject). -/
structure RegexEngine where
  compileError : String → Option String
  fullmatch : String → String → Bool
  search : String → String → Bool

/-- The wall-clock oracle: a stream of `time.time()` readings. -/
structure Clock where
  times : Nat → ℚ
  pos : Nat

/-- One `time.time()` call. -/
def Clock.tick (c : Clock) : ℚ × Clock :=
  (c.times c.pos, { c with pos := c.pos + 1 })

/-- The dictionary produced by `MultiCriteriaScorer._evaluate_performance`. -/
structure PerformanceResult where
  score : ℚ
  timeoutOccurred : Bool

/-- The `for test_string in test_sample` loop of
`_evaluate_performance`: each entry first reads the clock and breaks
with a timeout when the elapsed time exceeds the budget; the
`fullmatch` and `search` calls that follow have no observable effect in
the embedding (their results are discarded by the source). -/
def perfLoop (timeoutSeconds startTime : ℚ) :
    List String → Clock → Bool × Clock
  | [], clock => (false, clock)
  | _ :: rest, clock =>
      let (t, clock) := clock.tick
      if timeoutSeconds < t - startTime then (true, clock)
      else perfLoop timeoutSeconds startTime rest clock

/-- `MultiCriteriaScorer._evaluate_performance`: with no test strings,
score 1 and no clock reads; otherwise run up to 100 strings under the
budget and score `1 / (1 + elapsed / (timeout/2))`, or 0 on timeout.
(The `except` branch of the source is unreachable here: the oracle
matches never raise.) -/
def evaluatePerformance (timeoutSeconds : ℚ) (testStrings : List String)
    (clock : Clock) : PerformanceResult × Clock :=
  match testStrings with
  | [] => ({ score := 1, timeoutOccurred := false }, clock)
  | _ :: _ =>
      let (startTime, clock) := clock.tick
      let testSample := testStrings.take (min 100 testStrings.length)
      let (timeoutOccurred, clock) := perfLoop timeoutSeconds startTime testSample clock
      let (tEnd, clock) := clock.tick
      let executionTime := tEnd - startTime
      let score : ℚ :=
        if timeoutOccurred then 0
        else 1 / (1 + executionTime / (timeoutSeconds / 2))
      ({ score := score, timeoutOccurred := timeoutOccurred }, clock)

/-- `MultiCriteriaScorer._evaluate_complexity`:
`1 / (1 + complexity/100)`. -/
def evaluateComplexity (pattern : PatternAST) : ℚ :=
  1 / (1 + (pattern.complexity : ℚ) / 100)

mutual

/-- `MultiCriteriaScorer._calculate_nesting_depth._depth`: depth grows
through Quantifier and Group children; an Alternation takes the maximum
over its alternatives at the same depth.  (On an empty `alternatives`
list the source's `max()` would raise; the embedding returns the
current depth there.) -/
def nestingDepth : PatternNode → Nat → Nat
  | .quantifier child _ _ _, depth => nestingDepth child (depth + 1)
  | .group child _ _, depth => nestingDepth child (depth + 1)
  | .alternation alts, depth => nestingDepthList alts depth
  | _, depth => depth

/-- `max(_depth(alt, current_depth) for alt in node.alternatives)`. -/
def nestingDepthList : List PatternNode → Nat → Nat
  | [], depth => depth
  | [a], depth => nestingDepth a depth
  | a :: b :: rest, depth =>
      max (nestingDepth a depth) (nestingDepthList (b :: rest) depth)

end

/-- `MultiCriteriaScorer._evaluate_readability`: start at 1.0 and apply
the four multiplicative penalties, then clamp to `[0, 1]`.  The
length penalty's exponent `(len - 50) / 10` is a float (true division),
hence the real power; the other exponents are integers. -/
noncomputable def evaluateReadability (pattern : PatternAST) (regexStr : String) : ℝ :=
  let readability : ℝ := 1
  let depth := nestingDepth pattern.root 0
  let readability :=
    if 3 < depth then readability * (0.8 : ℝ) ^ (depth - 3) else readability
  let readability :=
    if 50 < regexStr.length then
      readability * (0.9 : ℝ) ^ (((regexStr.length : ℝ) - 50) / 10)
    else readability
  let braceCount := countChar regexStr '{'
  let readability :=
    if 2 < braceCount then readability * (0.95 : ℝ) ^ (braceCount - 2)
    else readability
  let altCount := countChar regexStr '|'
  let readability :=
    if 3 < altCount then readability * (0.9 : ℝ) ^ (altCount - 3)
    else readability
  max 0 (min 1 readability)

/-- The record produced by `MultiCriteriaScorer.score` (the
`FitnessResult` dataclass).  `total_score` and `readability_score` are
real-valued (the readability penalty uses a real power); the other
sub-scores stay rational. -/
structure FitnessResult where
  totalScore : ℝ
  correctnessScore : ℚ
  complexityScore : ℚ
  readabilityScore : ℝ
  performanceScore : ℚ
  positiveMatches : Nat
  negativeMatches : Nat
  positiveTotal : Nat
  negativeTotal : Nat
  evaluationTimeMs : ℚ
  timeoutOccurred : Bool
  compilationError : Option String

/-- `MultiCriteriaScorer.score`: read the clock, serialize and compile
(compile failure yields the all-zero result), evaluate the four
sub-scores, combine them with the normalized weights, and read the
clock again for `evaluation_time_ms`. -/
noncomputable def scorerScore (weights : ScorerWeights) (timeoutSeconds : ℚ)
    (engine : RegexEngine) (pattern : PatternAST)
    (positiveExamples negativeExamples : List String) (clock : Clock) :
    FitnessResult × Clock :=
  let (startTime, clock) := clock.tick
  let regexStr := pattern.toRegex
  match engine.compileError regexStr with
  | some e =>
      ({ totalScore := 0, correctnessScore := 0, complexityScore := 0,
         readabilityScore := 0, performanceScore := 0, positiveMatches := 0,
         negativeMatches := 0, positiveTotal := positiveExamples.length,
         negativeTotal := negativeExamples.length, evaluationTimeMs := 0,
         timeoutOccurred := false, compilationError := some e }, clock)
  | none =>
      let correctness := evaluateCorrectness (engine.fullmatch regexStr)
        positiveExamples negativeExamples
      let complexityScore := evaluateComplexity pattern
      let readabilityScore := evaluateReadability pattern regexStr
      let (performance, clock) := evaluatePerformance timeoutSeconds
        (positiveExamples ++ negativeExamples) clock
      let totalScore : ℝ :=
        (weights.correctnessWeight : ℝ) * (correctness.score : ℝ) +
        (weights.complexityWeight : ℝ) * (complexityScore : ℝ) +
        (weights.readabilityWeight : ℝ) * readabilityScore +
        (weights.performanceWeight : ℝ) * (performance.score : ℝ)
      let (tEnd, clock) := clock.tick
      ({ totalScore := totalScore, correctnessScore := correctness.score,
         complexityScore := complexityScore,
         readabilityScore := readabilityScore,
         performanceScore := performance.score,
         positiveMatches := correctness.positiveMatches,
         negativeMatches := correctness.negativeMatches,
         positiveTotal := positiveExamples.length,
         negativeTotal := negativeExamples.length,
         evaluationTimeMs := (tEnd - startTime) * 1000,
         timeoutOccurred := performance.timeoutOccurred,
         compilationError := none }, clock)

/-! ## Cooling scheduler (`TemperatureScheduler`) -/

/-- The `CoolingSchedule` enum. -/
inductive CoolingSchedule where
  | linear
  | exponential
  | logarithmic
  | adaptive

/-- The `SAConfig` dataclass with its source defaults. -/
structure SAConfig where
  initialTemperature : ℚ := 10
  finalTemperature : ℚ := 0.01
  maxIterations : Nat := 1000
  maxNoImprovement : Nat := 150
  coolingSchedule : CoolingSchedule := .adaptive
  mutationRate : ℚ := 0.15
  maxComplexity : Nat := 50
  randomSeed : Option Int := none
  timeoutSeconds : Option ℚ := none

/-- `TemperatureScheduler._linear_cooling`. -/
noncomputable def linearCooling (cfg : SAConfig) (iteration : Nat) : ℝ :=
  (cfg.initialTemperature : ℝ) * (1 - (iteration : ℝ) / cfg.maxIterations)

/-- `TemperatureScheduler._exponential_cooling`:
`initial · ((final/initial) ** (1/max_iterations)) ** iteration` with
float (real) powers. -/
noncomputable def exponentialCooling (cfg : SAConfig) (iteration : Nat) : ℝ :=
  let coolingRate := ((cfg.finalTemperature : ℝ) / cfg.initialTemperature) ^
    ((1 : ℝ) / cfg.maxIterations)
  (cfg.initialTemperature : ℝ) * coolingRate ^ (iteration : ℝ)

/-- `TemperatureScheduler._logarithmic_cooling`. -/
noncomputable def logarithmicCooling (cfg : SAConfig) (iteration : Nat) : ℝ :=
  if iteration = 0 then cfg.initialTemperature
  else (cfg.initialTemperature : ℝ) / Real.log ((iteration : ℝ) + 1)

/-- `self.stagnation_threshold = max(50, config.max_iterations // 20)`. -/
def stagnationThreshold (cfg : SAConfig) : Nat :=
  max 50 (cfg.maxIterations / 20)

/-- `TemperatureScheduler._adaptive_cooling`: exponential base, slowed
down by `1.5 + (stagnation_time - threshold)/100` after stagnation, and
clamped from below by the final temperature. -/
noncomputable def adaptiveCooling (cfg : SAConfig)
    (iteration lastImprovementIter : Nat) : ℝ :=
  let baseTemp := exponentialCooling cfg iteration
  let stagnationTime : Int := (iteration : Int) - lastImprovementIter
  let baseTemp :=
    if (stagnationThreshold cfg : Int) < stagnationTime then
      baseTemp * (1.5 + ((stagnationTime - stagnationThreshold cfg : Int) : ℝ) / 100)
    else baseTemp
  max baseTemp (cfg.finalTemperature : ℝ)

/-- `TemperatureScheduler.get_temperature`. -/
noncomputable def getTemperature (cfg : SAConfig)
    (iteration lastImprovementIter : Nat) : ℝ :=
  match cfg.coolingSchedule with
  | .linear => linearCooling cfg iteration
  | .exponential => exponentialCooling cfg iteration
  | .logarithmic => logarithmicCooling cfg iteration
  | .adaptive => adaptiveCooling cfg iteration lastImprovementIter

/-! ## Annealing driver (`SimulatedAnnealing.optimize`) -/

/-- The mutable loop state of `optimize`. -/
structure SAState where
  currentPattern : PatternAST
  currentFitness : FitnessResult
  bestPattern : PatternAST
  bestFitness : FitnessResult
  temperatureHistory : List ℝ
  fitnessHistory : List ℝ
  acceptedMoves : Nat
  rejectedMoves : Nat
  lastImprovementIteration : Nat
  noImprovementCount : Nat
  rng : PyRandom
  clock : Clock

/-- The `SAResult` dataclass. -/
structure SAResult where
  bestPattern : PatternAST
  bestFitness : FitnessResult
  iterations : Nat
  timeSeconds : ℚ
  temperatureHistory : List ℝ
  fitnessHistory : List ℝ
  acceptedMoves : Nat
  rejectedMoves : Nat
  convergenceReason : String
  finalTemperature : ℝ

/-- The top-of-iteration timeout check:
`if self.config.timeout_seconds and (time.time() - start_time) > ...`.
`None` and `0.0` are falsy, so the clock is only read when a non-zero
budget is configured. -/
def driverTimeoutCheck (cfg : SAConfig) (startTime : ℚ) (clock : Clock) :
    Bool × Clock :=
  match cfg.timeoutSeconds with
  | none => (false, clock)
  | some ts =>
      if ts = 0 then (false, clock)
      else
        let (t, clock) := clock.tick
        (decide (ts < t - startTime), clock)

open Classical in
/-- The body of one `optimize` iteration after the temperature was
appended: mutate, complexity-gate, score, accept/reject, bookkeeping,
and the three early-convergence checks.  Returns the new state and
`some reason` when the loop breaks.  This part never touches
`temperatureHistory`. -/
noncomputable def saIterateInner (cfg : SAConfig) (engine : RegexEngine)
    (weights : ScorerWeights) (scorerTimeout : ℚ)
    (positiveExamples negativeExamples : List String) (iteration : Nat)
    (temperature : ℝ) (st : SAState) : SAState × Option String :=
  let (neighborPattern, rng) := mutate cfg.mutationRate st.currentPattern st.rng
  let st := { st with rng := rng }
  if cfg.maxComplexity < neighborPattern.complexity then
    let st := { st with
      rejectedMoves := st.rejectedMoves + 1,
      fitnessHistory := st.fitnessHistory ++ [st.currentFitness.totalScore] }
    (st, none)
  else
    let (neighborFitness, clock) := scorerScore weights scorerTimeout engine
      neighborPattern positiveExamples negativeExamples st.clock
    let st := { st with clock := clock }
    let (accept, rng) := shouldAccept st.currentFitness.totalScore
      neighborFitness.totalScore temperature st.rng
    let st := { st with rng := rng }
    let st :=
      if accept then
        let improved := st.bestFitness.totalScore < neighborFitness.totalScore
        { st with
          currentPattern := neighborPattern,
          currentFitness := neighborFitness,
          acceptedMoves := st.acceptedMoves + 1,
          bestPattern := if improved then neighborPattern.clone else st.bestPattern,
          bestFitness := if improved then neighborFitness else st.bestFitness,
          lastImprovementIteration :=
            if improved then iteration else st.lastImprovementIteration,
          noImprovementCount := if improved then 0 else st.noImprovementCount + 1 }
      else
        { st with
          rejectedMoves := st.rejectedMoves + 1,
          noImprovementCount := st.noImprovementCount + 1 }
    let st := { st with
      fitnessHistory := st.fitnessHistory ++ [st.currentFitness.totalScore] }
    if cfg.maxNoImprovement ≤ st.noImprovementCount then (st, some "no_improvement")
    else if (0.999 : ℝ) ≤ st.bestFitness.totalScore ∧
        st.bestFitness.positiveMatches = positiveExamples.length ∧
        st.bestFitness.negativeMatches = negativeExamples.length then
      (st, some "perfect_solution")
    else if temperature < (cfg.finalTemperature : ℝ) then
      (st, some "temperature_converged")
    else (st, none)

/-- One full `optimize` iteration: timeout check, temperature append,
then `saIterateInner`. -/
noncomputable def saIterate (cfg : SAConfig) (engine : RegexEngine)
    (weights : ScorerWeights) (scorerTimeout : ℚ)
    (positiveExamples negativeExamples : List String) (startTime : ℚ)
    (iteration : Nat) (st : SAState) : SAState × Option String :=
  let (timeoutHit, clock) := driverTimeoutCheck cfg startTime st.clock
  let st := { st with clock := clock }
  if timeoutHit then (st, some "timeout")
  else
    let temperature := getTemperature cfg iteration st.lastImprovementIteration
    let st := { st with
      temperatureHistory := st.temperatureHistory ++ [temperature] }
    saIterateInner cfg engine weights scorerTimeout positiveExamples
      negativeExamples iteration temperature st

/-- The `for iteration in range(max_iterations)` loop with its `break`s
and `for`-`else`.  The first component of the returned triple is the
final state, the second the `iteration + 1` count the source reports,
the third the convergence reason. -/
noncomputable def saLoop (cfg : SAConfig) (engine : RegexEngine)
    (weights : ScorerWeights) (scorerTimeout : ℚ)
    (positiveExamples negativeExamples : List String) (startTime : ℚ) :
    Nat → Nat → SAState → SAState × Nat × String
  | 0, iteration, st => (st, iteration, "max_iterations")
  | remaining + 1, iteration, st =>
      match saIterate cfg engine weights scorerTimeout positiveExamples
        negativeExamples startTime iteration st with
      | (st', some reason) => (st', iteration + 1, reason)
      | (st', none) =>
          saLoop cfg engine weights scorerTimeout positiveExamples
            negativeExamples startTime remaining (iteration + 1) st'

/-- `SimulatedAnnealing.optimize` with an initial pattern supplied:
read the start time, score the (cloned) initial pattern, run the loop,
and assemble the `SAResult`.  (With `max_iterations = 0` the source
would raise `NameError` — the loop variable is unbound after an empty
`range` — whereas this embedding reports 0 iterations.) -/
noncomputable def optimizeCore (cfg : SAConfig) (engine : RegexEngine)
    (weights : ScorerWeights) (scorerTimeout : ℚ)
    (positiveExamples negativeExamples : List String)
    (initialPattern : PatternAST) (rng : PyRandom) (clock : Clock) : SAResult :=
  let (startTime, clock) := clock.tick
  let currentPattern := initialPattern.clone
  let (currentFitness, clock) := scorerScore weights scorerTimeout engine
    currentPattern positiveExamples negativeExamples clock
  let st : SAState :=
    { currentPattern := currentPattern, currentFitness := currentFitness,
      bestPattern := currentPattern.clone, bestFitness := currentFitness,
      temperatureHistory := [], fitnessHistory := [], acceptedMoves := 0,
      rejectedMoves := 0, lastImprovementIteration := 0,
      noImprovementCount := 0, rng := rng, clock := clock }
  let res := saLoop cfg engine weights scorerTimeout positiveExamples
    negativeExamples startTime cfg.maxIterations 0 st
  let st := res.1
  let (tEnd, _) := st.clock.tick
  { bestPattern := st.bestPattern, bestFitness := st.bestFitness,
    iterations := res.2.1, timeSeconds := tEnd - startTime,
    temperatureHistory := st.temperatureHistory,
    fitnessHistory := st.fitnessHistory, acceptedMoves := st.acceptedMoves,
    rejectedMoves := st.rejectedMoves, convergenceReason := res.2.2,
    finalTemperature := st.temperatureHistory.getLastD 0 }

/-- The parameter names of `PatternMutator.generate_random_pattern`
(`def generate_random_pattern(self, max_complexity: int = 20)`). -/
def generateRandomPatternParams : List String := ["self", "max_complexity"]

/-- The keyword arguments of the seeding call in
`SimulatedAnnealing.optimize`:
`generate_random_pattern(max_complexity=self.config.max_complexity // 2,
examples=positive_examples)`. -/
def optimizeSeedCallKeywords : List String := ["max_complexity", "examples"]

/-- The `TypeError` Python raises for the seeding call: `examples` is
not among the callee's parameters. -/
def seedCallTypeError : String :=
  "TypeError: generate_random_pattern() got an unexpected keyword argument"

/-- `SimulatedAnnealing.optimize`.  When no initial pattern is given,
the source calls `generate_random_pattern` with the keyword argument
`examples`, which the callee does not accept: under Python call
semantics the call raises `TypeError` before any search begins. -/
noncomputable def optimize (cfg : SAConfig) (engine : RegexEngine)
    (weights : ScorerWeights) (scorerTimeout : ℚ)
    (positiveExamples negativeExamples : List String)
    (initialPattern : Option PatternAST) (rng : PyRandom) (clock : Clock) :
    Except String SAResult :=
  match initialPattern with
  | none => .error seedCallTypeError
  | some p =>
      .ok (optimizeCore cfg engine weights scorerTimeout positiveExamples
        negativeExamples p rng clock)

/-! ## Claim C1 -/

/-- C1 (code bug): the seeding call in `optimize` passes the keyword
argument `examples`, which `generate_random_pattern` does not accept
(its parameters are `self` and `max_complexity`), so every `optimize`
call without an initial IR raises `TypeError` instead of returning a
`Result`. -/
theorem optimize_without_initial_raises (cfg : SAConfig)
    (engine : RegexEngine) (weights : ScorerWeights) (scorerTimeout : ℚ)
    (positiveExamples negativeExamples : List String) (rng : PyRandom)
    (clock : Clock) :
    optimizeSeedCallKeywords.filter
        (fun k => !generateRandomPatternParams.contains k) = ["examples"] ∧
    optimize cfg engine weights scorerTimeout positiveExamples
        negativeExamples none rng clock = .error seedCallTypeError :=
  ⟨rfl, rfl⟩

/-! ## Claim C8 -/

/-- Under the adaptive schedule every temperature the scheduler returns
is clamped from below by the final temperature. -/
theorem getTemperature_adaptive_ge_final (cfg : SAConfig)
    (h : cfg.coolingSchedule = .adaptive)
    (iteration lastImprovementIter : Nat) :
    (cfg.finalTemperature : ℝ) ≤
      getTemperature cfg iteration lastImprovementIter := by
  simp only [getTemperature, h, adaptiveCooling]
  exact le_max_right _ _

/-- The post-temperature part of an iteration never touches the
temperature history. -/
theorem saIterateInner_temperatureHistory (cfg : SAConfig)
    (engine : RegexEngine) (weights : ScorerWeights) (scorerTimeout : ℚ)
    (pos neg : List String) (iteration : Nat) (temperature : ℝ)
    (st : SAState) :
    (saIterateInner cfg engine weights scorerTimeout pos neg iteration
      temperature st).1.temperatureHistory = st.temperatureHistory := by
  rcases hm : mutate cfg.mutationRate st.currentPattern st.rng with ⟨np, rng1⟩
  rcases hs : scorerScore weights scorerTimeout engine np pos neg st.clock
    with ⟨nf, clock1⟩
  rcases ha : shouldAccept st.currentFitness.totalScore nf.totalScore
    temperature rng1 with ⟨acc, rng2⟩
  simp only [saIterateInner, hm]
  split
  · rfl
  · simp only [hs, ha]
    repeat' split
    all_goals rfl

/-- One iteration either leaves the temperature history unchanged (the
driver-timeout break) or appends exactly one scheduler output. -/
theorem saIterate_temperatureHistory (cfg : SAConfig) (engine : RegexEngine)
    (weights : ScorerWeights) (scorerTimeout : ℚ) (pos neg : List String)
    (startTime : ℚ) (iteration : Nat) (st : SAState) :
    (saIterate cfg engine weights scorerTimeout pos neg startTime iteration
        st).1.temperatureHistory = st.temperatureHistory ∨
    (saIterate cfg engine weights scorerTimeout pos neg startTime iteration
        st).1.temperatureHistory =
      st.temperatureHistory ++
        [getTemperature cfg iteration st.lastImprovementIteration] := by
  rcases ht : driverTimeoutCheck cfg startTime st.clock with ⟨hit, clock1⟩
  simp only [saIterate, ht]
  split
  · exact Or.inl rfl
  · right
    rw [saIterateInner_temperatureHistory]

/-- Loop invariant: with the adaptive schedule, if everything in the
temperature history dominates the final temperature, that stays true
after running the remaining iterations. -/
theorem saLoop_temperatureHistory_invariant (cfg : SAConfig)
    (engine : RegexEngine) (weights : ScorerWeights) (scorerTimeout : ℚ)
    (pos neg : List String) (startTime : ℚ)
    (h : cfg.coolingSchedule = .adaptive) :
    ∀ (remaining iteration : Nat) (st : SAState),
      st.temperatureHistory.Forall (fun t => (cfg.finalTemperature : ℝ) ≤ t) →
      (saLoop cfg engine weights scorerTimeout pos neg startTime remaining
          iteration st).1.temperatureHistory.Forall
        (fun t => (cfg.finalTemperature : ℝ) ≤ t) := by
  intro remaining
  induction remaining with
  | zero => intro iteration st hst; simpa [saLoop] using hst
  | succ n ih =>
      intro iteration st hst
      rcases hi : saIterate cfg engine weights scorerTimeout pos neg startTime
        iteration st with ⟨st', reason⟩
      have h2 : st'.temperatureHistory.Forall
          (fun t => (cfg.finalTemperature : ℝ) ≤ t) := by
        have hh := saIterate_temperatureHistory cfg engine weights scorerTimeout
          pos neg startTime iteration st
        rw [hi] at hh
        rcases hh with he | he
        · rw [he]; exact hst
        · rw [he]
          refine List.forall_iff_forall_mem.mpr ?_
          intro t htm
          rcases List.mem_append.mp htm with hmem | hmem
          · exact List.forall_iff_forall_mem.mp hst t hmem
          · rcases List.mem_singleton.mp hmem with rfl
            exact getTemperature_adaptive_ge_final cfg h _ _
      simp only [saLoop, hi]
      cases reason with
      | none => exact ih (iteration + 1) st' h2
      | some r => exact h2

/-- C8: whenever the cooling schedule is adaptive, every temperature
appended to `temperature_history` during an `optimize` run is at least
the configured final temperature. -/
theorem adaptive_temperature_history_above_final (cfg : SAConfig)
    (engine : RegexEngine) (weights : ScorerWeights) (scorerTimeout : ℚ)
    (pos neg : List String) (initialPattern : PatternAST) (rng : PyRandom)
    (clock : Clock) (h : cfg.coolingSchedule = .adaptive) :
    (optimizeCore cfg engine weights scorerTimeout pos neg initialPattern rng
        clock).temperatureHistory.Forall
      (fun t => (cfg.finalTemperature : ℝ) ≤ t) := by
  rcases h0 : clock.tick with ⟨t0, clock0⟩
  rcases h1 : scorerScore weights scorerTimeout engine initialPattern.clone
    pos neg clock0 with ⟨cf, clock1⟩
  simp only [optimizeCore, h0, h1]
  exact saLoop_temperatureHistory_invariant cfg engine weights scorerTimeout
    pos neg t0 h cfg.maxIterations 0 _ (by simp)

/-- A regex-engine oracle on which every pattern compiles and every
subject matches. -/
def allMatchEngine : RegexEngine := ⟨fun _ => none, fun _ _ => true, fun _ _ => true⟩

/-- The balanced-mode default weights. -/
def balancedWeights : ScorerWeights := initWeights .balanced none none none none

/-- An RNG oracle whose float stream is constantly 1/2 (so no node is
ever selected at the default mutation rate) and whose index stream is
constantly 0. -/
def halfRng : PyRandom := ⟨fun _ => 1/2, 0, fun _ => 0, 0⟩

/-- A wall clock frozen at time 0. -/
def zeroClock : Clock := ⟨fun _ => 0, 0⟩

/-- C8 witness: a concrete run under the default (adaptive)
configuration. -/
theorem adaptive_temperature_history_witness :
    (optimizeCore {} allMatchEngine balancedWeights 1 ["a"] [] ⟨.wildcard⟩
        halfRng zeroClock).temperatureHistory.Forall
      (fun t => ((({} : SAConfig).finalTemperature : ℝ) ≤ t)) :=
  adaptive_temperature_history_above_final {} allMatchEngine balancedWeights 1
    ["a"] [] ⟨.wildcard⟩ halfRng zeroClock rfl

/-! ## Claim C7 -/

/-- A one-iteration configuration whose complexity cap rejects every
neighbor of a complexity-3 pattern. -/
def clockDependenceConfig : SAConfig := { maxIterations := 1, maxComplexity := 2 }

/-- A wall clock advancing one second per reading. -/
def linClock : Clock := ⟨fun n => n, 0⟩

set_option maxHeartbeats 1000000 in
/-- C7 counterexample: two `optimize` runs with identical configuration
(including the seed-derived RNG stream) but different wall-clock
readings return different `fitness_history` sequences — the
performance sub-score divides by the measured elapsed time
(`_evaluate_performance`), and that score enters every
`fitness_history` entry through the weighted total. -/
theorem optimize_fitness_history_depends_on_clock :
    (optimize clockDependenceConfig allMatchEngine balancedWeights 1 ["a"] []
        (some ⟨.literal "abc"⟩) halfRng zeroClock).map SAResult.fitnessHistory ≠
      (optimize clockDependenceConfig allMatchEngine balancedWeights 1 ["a"] []
        (some ⟨.literal "abc"⟩) halfRng linClock).map SAResult.fitnessHistory := by
  norm_num [optimize, Except.map, optimizeCore, Clock.tick, zeroClock,
    linClock, PatternAST.clone, clone_eq_self, scorerScore, allMatchEngine,
    PatternAST.toRegex, evaluateCorrectness, evaluateComplexity,
    PatternAST.complexity, evaluateReadability, nestingDepth,
    evaluatePerformance, perfLoop, saLoop, saIterate, driverTimeoutCheck,
    clockDependenceConfig, saIterateInner, mutate, mutateStep, mutateList,
    collectNodes, PyRandom.nextFloat, PyRandom.nextInt, halfRng,
    balancedWeights, initWeights, rawWeights, pyOr, List.countP,
    List.countP.go, PatternNode.complexity,
    show ("abc".length = 3) from rfl,
    show countChar "abc" '\x7b' = 0 from rfl,
    show countChar "abc" '|' = 0 from rfl,
    show (PatternNode.literal "abc").toRegex = "abc" from rfl]

/-- C7 (amended): determinism holds relative to the seed-derived RNG
streams AND the wall-clock readings together — two runs that agree on
the configuration, the examples, the engine oracle, the RNG streams and
the clock readings produce identical results.  (The clock hypothesis
cannot be dropped, by `optimize_fitness_history_depends_on_clock`.) -/
theorem optimize_deterministic_given_seed_and_clock (cfg : SAConfig)
    (engine : RegexEngine) (weights : ScorerWeights) (scorerTimeout : ℚ)
    (pos neg : List String) (initialPattern : Option PatternAST)
    (rng₁ rng₂ : PyRandom) (clock₁ clock₂ : Clock)
    (hr : rng₁ = rng₂) (hc : clock₁ = clock₂) :
    optimize cfg engine weights scorerTimeout pos neg initialPattern rng₁
        clock₁ =
      optimize cfg engine weights scorerTimeout pos neg initialPattern rng₂
        clock₂ := by
  rw [hr, hc]

/-- C7 witness: a concrete pair of runs with equal oracles. -/
theorem optimize_deterministic_witness :
    optimize clockDependenceConfig allMatchEngine balancedWeights 1 ["a"] []
        (some ⟨.literal "abc"⟩) halfRng zeroClock =
      optimize clockDependenceConfig allMatchEngine balancedWeights 1 ["a"] []
        (some ⟨.literal "abc"⟩) halfRng zeroClock :=
  optimize_deterministic_given_seed_and_clock clockDependenceConfig
    allMatchEngine balancedWeights 1 ["a"] [] (some ⟨.literal "abc"⟩)
    halfRng halfRng zeroClock zeroClock rfl rfl

end RegexGen
